import Mathlib

/-!
# Verification of the osml-models detection-to-geospatial-feature pipeline

Shallow embedding of the mock model-inference services of `osml-models`:
the raster decode/response wiring of the flood, centerpoint and aircraft
Flask apps, the stub detectors, the feature encoders and the mask
contour post-processing, together with theorems about them.

Conventions of the embedding:
* Pixel-coordinate and score arithmetic is over `ℚ` (idealised IEEE
  floats; every concrete scenario proved below is exact in float64 too).
* The process-wide random sources (`secrets.token_hex`, `uuid.uuid4`,
  `random.randrange`, `random.uniform`) are modelled as explicit streams
  passed into the functions: token draws are indexed reads from an
  entropy stream with an explicit counter, exactly one draw per call in
  the source's evaluation order.
* Fallible code (`random.randrange` on an empty range, GDAL decode
  failure, the fault-detection exception) is modelled with
  `Option`/`Except`; the Flask `predict` handlers are total functions
  from the decode outcome to the HTTP response they build.
-/

namespace OsmlModels

/-- An opaque generated token (`secrets.token_hex(16)` / `str(uuid.uuid4())`). -/
abbrev Token := ℕ

/-- A process-wide entropy source: the `n`-th token drawn by the process. -/
abbrev Entropy := ℕ → ℕ

/-- One draw from the entropy source, as performed by `secrets.token_hex(16)`:
returns the token and the advanced draw counter. -/
def token_hex (e : Entropy) (k : ℕ) : Token × ℕ := (e k, k + 1)

/-- One draw from the entropy source, as performed by `str(uuid.uuid4())`. -/
def uuid4 (e : Entropy) (k : ℕ) : Token × ℕ := (e k, k + 1)

/-- A GeoJSON feature as emitted by the feature encoders
(`detect_to_geojson_dict`, `detect_to_feature`, `detect_to_geojson`,
`instances_to_feature_collection`).  The constant `"type": "Feature"` key is
implicit; `geometry` is the placeholder point; `polygon_imcoords` and
`geom_imcoords` are the optional polygon keys used by the centerpoint
segmentation encoder and by the flood/aircraft encoders respectively. -/
structure Feature where
  fid : Token
  geometry : ℚ × ℚ
  bounds_imcoords : List ℚ
  polygon_imcoords : Option (List (ℚ × ℚ))
  geom_imcoords : Option (List (ℚ × ℚ))
  detection_score : ℚ
  feature_types : List (String × ℚ)
  image_id : Token
  deriving DecidableEq, Inhabited

/-- Body of an HTTP response built by a `predict` handler: either plain text
or a serialised `FeatureCollection` (we keep the feature list instead of the
JSON string `json.dumps` would produce). -/
inductive RespBody where
  | text (s : String)
  | featureCollection (fs : List Feature)
  deriving DecidableEq

/-- An HTTP response built by a `predict` handler. -/
structure Resp where
  status : ℕ
  body : RespBody
  deriving DecidableEq

/-- The features of a response, empty for a text response. -/
def respFeatures : Resp → List Feature
  | ⟨_, RespBody.featureCollection fs⟩ => fs
  | ⟨_, RespBody.text _⟩ => []

/-- `server_utils.detect_to_geojson_dict(fixed_object_bbox, detection_score,
detection_type)`: builds the GeoJSON feature dict; `id` and
`properties.image_id` are each a fresh `token_hex(16)` draw, in that order. -/
def detect_to_geojson_dict (fixed_object_bbox : List ℚ) (detection_score : ℚ)
    (detection_type : String) (e : Entropy) (k : ℕ) : Feature × ℕ :=
  let idDraw := token_hex e k
  let imgDraw := token_hex e idDraw.2
  (⟨idDraw.1, (0, 0), fixed_object_bbox, none, none, detection_score,
    [(detection_type, detection_score)], imgDraw.1⟩, imgDraw.2)

/-- Modelled from the spec: the flood app imports `detect_to_feature` from
`aws.osml.models` (a `server_utils` revision not under `src/`; only its test
`test_detect_to_feature` and its callers are).  Per the Feature Encoder
contract (spec §4.4, §6) and that test: placeholder `Point(0,0)` geometry,
`bounds_imcoords` from the bbox, `geom_imcoords` present exactly when a mask
polygon is supplied, `detection_score` and single-entry `feature_types` from
the score (default 1.0) and type (default `"sample_object"`), and `id` /
`image_id` each a freshly generated opaque token. -/
def detect_to_feature (fixed_object_bbox : List ℚ)
    (fixed_object_mask : Option (List (ℚ × ℚ))) (detection_score : ℚ)
    (detection_type : String) (e : Entropy) (k : ℕ) : Feature × ℕ :=
  let idDraw := token_hex e k
  let imgDraw := token_hex e idDraw.2
  (⟨idDraw.1, (0, 0), fixed_object_bbox, none, fixed_object_mask,
    detection_score, [(detection_type, detection_score)], imgDraw.1⟩, imgDraw.2)

/-- Modelled from the spec: `centerpoint/app.py` imports `detect_to_geojson`
from a `server_utils` revision not under `src/`.  Per the Feature Encoder
contract (spec §4.4) and the sibling `src/` encoders `detect_to_geojson_dict`
and `detect_to_geojson_segmentation_dict`: same feature dict, with
`polygon_imcoords` present exactly when a polygon is supplied, default score
1.0 and class `"sample_object"`, and fresh `id` / `image_id` tokens. -/
def detect_to_geojson (fixed_object_bbox : List ℚ)
    (fixed_object_polygon : Option (List (ℚ × ℚ))) (e : Entropy) (k : ℕ) :
    Feature × ℕ :=
  let idDraw := token_hex e k
  let imgDraw := token_hex e idDraw.2
  (⟨idDraw.1, (0, 0), fixed_object_bbox, fixed_object_polygon, none, 1,
    [("sample_object", 1)], imgDraw.1⟩, imgDraw.2)

/-! ## Centerpoint stub detector (`centerpoint/app.py`) -/

/-- `gen_center_bbox(width, height, bbox_percentage)`. -/
def gen_center_bbox (width height : ℕ) (bbox_percentage : ℚ) : List ℚ :=
  let center_xy : ℚ × ℚ := ((width : ℚ) / 2, (height : ℚ) / 2)
  let fixed_object_size_xy : ℚ × ℚ :=
    ((width : ℚ) * bbox_percentage, (height : ℚ) * bbox_percentage)
  [center_xy.1 - fixed_object_size_xy.1, center_xy.2 - fixed_object_size_xy.2,
   center_xy.1 + fixed_object_size_xy.1, center_xy.2 + fixed_object_size_xy.2]

/-- Model of `CirclePolygon((0,0), radius, resolution=6).get_path().vertices
.tolist()`: matplotlib's unit regular hexagon path, 7 vertices with the last
one closing back onto the first (the patch radius does not affect
`get_path()`, which is the unit polygon — the repository code scales it
afterwards).  The true float coordinates are `(cos θ, sin θ)` at
`θ = π/2 + k·π/3`; rational surrogates stand in for them — no property proved
below depends on the numeric coordinates, only on the length of this list and
on the transformations the repository applies to it pointwise. -/
def circle_polygon_unit_path : List (ℚ × ℚ) :=
  [(0, 1), (-433/500, 1/2), (-433/500, -1/2), (0, -1), (433/500, -1/2),
   (433/500, 1/2), (0, 1)]

/-- `gen_center_polygon_detect(width, height, bbox_percentage)`: the analytic
hexagon inscribed in the centered bbox; the path is closed by appending its
first vertex, moved to `[0,1]` coordinates, scaled by the bbox size and
translated to the image center, then encoded with `detect_to_geojson`. -/
def gen_center_polygon_detect (width height : ℕ) (bbox_percentage : ℚ)
    (e : Entropy) (k : ℕ) : Feature × ℕ :=
  let center_xy : ℚ × ℚ := ((width : ℚ) / 2, (height : ℚ) / 2)
  let fixed_object_bbox := gen_center_bbox width height bbox_percentage
  let poly_path := circle_polygon_unit_path ++ [circle_polygon_unit_path.headI]
  let nonzero_circle := poly_path.map (fun v => ((v.1 + 1) / 2, (v.2 + 1) / 2))
  let poly_scale : ℚ × ℚ :=
    (bbox_percentage * (width : ℚ), bbox_percentage * (height : ℚ))
  let scaled_circle := nonzero_circle.map
    (fun v => (v.1 * poly_scale.1 + center_xy.1, v.2 * poly_scale.2 + center_xy.2))
  detect_to_geojson fixed_object_bbox (some scaled_circle) e k

/-- `gen_center_point_detect(width, height, bbox_percentage)`. -/
def gen_center_point_detect (width height : ℕ) (bbox_percentage : ℚ)
    (e : Entropy) (k : ℕ) : Feature × ℕ :=
  let center_xy : ℚ × ℚ := ((width : ℚ) / 2, (height : ℚ) / 2)
  let fixed_object_size_xy : ℚ × ℚ :=
    ((width : ℚ) * bbox_percentage, (height : ℚ) * bbox_percentage)
  let fixed_object_bbox : List ℚ :=
    [center_xy.1 - fixed_object_size_xy.1, center_xy.2 - fixed_object_size_xy.2,
     center_xy.1 + fixed_object_size_xy.1, center_xy.2 + fixed_object_size_xy.2]
  detect_to_geojson fixed_object_bbox none e k

/-- The `predict` handler of `centerpoint/app.py`, as a function of the
`load_image` outcome (`none` models a payload GDAL cannot open, in which case
the handler returns 400 before any feature is generated; `some (w, h)` models
a decoded raster with `RasterXSize = w`, `RasterYSize = h`). -/
def centerpoint_predict (enable_segmentation : Bool) (bbox_percentage : ℚ)
    (e : Entropy) (k : ℕ) (decoded : Option (ℕ × ℕ)) : Resp :=
  match decoded with
  | none => ⟨400, RespBody.text "Unable to parse image from request!"⟩
  | some wh =>
    let fs :=
      if enable_segmentation then
        [(gen_center_polygon_detect wh.1 wh.2 bbox_percentage e k).1]
      else
        [(gen_center_point_detect wh.1 wh.2 bbox_percentage e k).1]
    ⟨200, RespBody.featureCollection fs⟩

/-! ## Flood stub detector (`flood/app.py`) -/

/-- `math.ceil` on a rational: the least integer not below the argument. -/
def math_ceil (q : ℚ) : ℤ := ⌈q⌉

/-- `random.randrange(lo, hi)` driven by a raw draw `r` from the random
source: a uniformly chosen element of `[lo, hi)`, or `none` when the range is
empty (Python raises `ValueError: empty range for randrange`). -/
def randrange (lo hi : ℤ) (r : ℕ) : Option ℤ :=
  if lo < hi then some (lo + (r : ℤ) % (hi - lo)) else none

/-- The body of one iteration of the loop in `gen_flood_detects` plus the
recursive remainder: iteration index `i`, token-draw counter `k`, and `m`
iterations left.  Mirrors the source: `fixed_object_size_xy = (ceil(width *
bbox_percentage), ceil(height * bbox_percentage))`, `gen_x = randrange(size_x,
width - size_x)`, `gen_y = randrange(size_y, height - size_y)`, the bbox
`[gen_x - size_x, gen_y - size_y, gen_x + size_x, gen_y + size_y]`, the
optional segmentation mask, and `detect_to_feature(bbox, mask,
random.uniform(0, 1))`.  `rx`/`ry` are the successive raw draws behind each
`randrange` call and `us` the successive `random.uniform(0, 1)` draws; a
`none` result models the `ValueError` escaping the loop. -/
def gen_flood_detects_aux (enable_segmentation : Bool) (height width : ℕ)
    (bbox_percentage : ℚ) (e : Entropy) (rx ry : ℕ → ℕ) (us : ℕ → ℚ) :
    ℕ → ℕ → ℕ → Option (List Feature)
  | _, _, 0 => some []
  | i, k, m + 1 =>
    let fixed_object_size_x : ℤ := math_ceil ((width : ℚ) * bbox_percentage)
    let fixed_object_size_y : ℤ := math_ceil ((height : ℚ) * bbox_percentage)
    match randrange fixed_object_size_x ((width : ℤ) - fixed_object_size_x) (rx i) with
    | none => none
    | some gen_x =>
      match randrange fixed_object_size_y ((height : ℤ) - fixed_object_size_y) (ry i) with
      | none => none
      | some gen_y =>
        let fixed_object_bbox : List ℚ :=
          [((gen_x - fixed_object_size_x : ℤ) : ℚ),
           ((gen_y - fixed_object_size_y : ℤ) : ℚ),
           ((gen_x + fixed_object_size_x : ℤ) : ℚ),
           ((gen_y + fixed_object_size_y : ℤ) : ℚ)]
        let fixed_object_mask : Option (List (ℚ × ℚ)) :=
          if enable_segmentation then
            some [(((gen_x - fixed_object_size_x : ℤ) : ℚ), ((gen_y + fixed_object_size_y : ℤ) : ℚ)),
                  (((gen_y - fixed_object_size_x : ℤ) : ℚ), ((gen_x + fixed_object_size_x : ℤ) : ℚ)),
                  (((gen_x + fixed_object_size_x : ℤ) : ℚ), ((gen_y + fixed_object_size_y : ℤ) : ℚ)),
                  (((gen_y + fixed_object_size_y : ℤ) : ℚ), ((gen_x + fixed_object_size_x : ℤ) : ℚ)),
                  (((gen_x - fixed_object_size_x : ℤ) : ℚ), ((gen_y + fixed_object_size_y : ℤ) : ℚ))]
          else none
        let fDraw := detect_to_feature fixed_object_bbox fixed_object_mask (us i)
          "sample_object" e k
        match gen_flood_detects_aux enable_segmentation height width
          bbox_percentage e rx ry us (i + 1) fDraw.2 m with
        | none => none
        | some fs => some (fDraw.1 :: fs)

/-- `gen_flood_detects(height, width, bbox_percentage)`: `FLOOD_VOLUME`
features, or `none` when a `randrange` call raises.  NOTE the parameter order
`(height, width, …)` of the source signature; the caller in `predict` passes
`(RasterXSize, RasterYSize, BBOX_PERCENTAGE)` positionally. -/
def gen_flood_detects (flood_volume : ℕ) (enable_segmentation : Bool)
    (height width : ℕ) (bbox_percentage : ℚ) (e : Entropy) (k : ℕ)
    (rx ry : ℕ → ℕ) (us : ℕ → ℚ) : Option (List Feature) :=
  gen_flood_detects_aux enable_segmentation height width bbox_percentage
    e rx ry us 0 k flood_volume

/-- Result of one invocation of the flood `predict` handler: the HTTP
response, and whether the temporary `/vsimem` buffer created by
`gdal.FileFromMemBuffer` was released (`gdal.Unlink`) before returning. -/
structure FloodStep where
  resp : Resp
  bufferReleased : Bool
  deriving DecidableEq

/-- The `predict` handler of `flood/app.py`, as a function of the
`gdal.Open` outcome.  `none` models `gdal.Open` raising `RuntimeError`
(undecodable payload): the handler returns 400, and in the `finally` block
`gdal_dataset is None`, so `gdal.Unlink` is NOT reached and the `/vsimem`
buffer stays allocated.  `some (w, h)` models a decoded raster: the handler
calls `gen_flood_detects(RasterXSize, RasterYSize, BBOX_PERCENTAGE)` — the
raster width is passed into the `height` parameter and the raster height
into `width` — answering 200 on success and 500 when the generator raises;
on both paths the `finally` block unlinks the buffer. -/
def flood_predict (flood_volume : ℕ) (enable_segmentation : Bool)
    (bbox_percentage : ℚ) (e : Entropy) (k : ℕ) (rx ry : ℕ → ℕ) (us : ℕ → ℚ)
    (decoded : Option (ℕ × ℕ)) : FloodStep :=
  match decoded with
  | none =>
    ⟨⟨400, RespBody.text "Unable to parse image from request!"⟩, false⟩
  | some wh =>
    match gen_flood_detects flood_volume enable_segmentation wh.1 wh.2
      bbox_percentage e k rx ry us with
    | none => ⟨⟨500, RespBody.text "Unable to process request."⟩, true⟩
    | some fs => ⟨⟨200, RespBody.featureCollection fs⟩, true⟩

/-! ## `server_utils.load_image` -/

/-- Buffer lifecycle of `server_utils.load_image`: `gdal.FileFromMemBuffer`
allocates a `/vsimem` buffer, `gdal.Open` produces the dataset (or `None`);
the function returns on every path without any `gdal.Unlink`, so the buffer
is never released. -/
structure LoadImageStep where
  ds : Option (ℕ × ℕ)
  bufferReleased : Bool
  deriving DecidableEq

/-- `server_utils.load_image(request)`, as a function of the `gdal.Open`
outcome.  No path of the source calls `gdal.Unlink` (the `/vsimem` name is a
local variable that does not escape), so `bufferReleased` is `false` on the
success, decode-failure and exception paths alike. -/
def load_image (openResult : Option (ℕ × ℕ)) : LoadImageStep :=
  { ds := openResult, bufferReleased := false }

/-! ## numpy casts and the mask contourer -/

/-- C-cast truncation toward zero, as performed by numpy `astype` on floats. -/
def rat_trunc (x : ℚ) : ℤ := if 0 ≤ x then ⌊x⌋ else -⌊-x⌋

/-- numpy `astype("uint8")` on a float sample: truncate toward zero and wrap
modulo 256. -/
def np_astype_uint8 (x : ℚ) : ℕ := (rat_trunc x % 256).toNat

/-- Pixel lookup in a row-major grid of 8-bit samples, `(x, y)` pixel
coordinates (`y` is the row index); out-of-bounds reads as background 0. -/
def gridAt (g : List (List ℕ)) (p : ℤ × ℤ) : ℕ :=
  if 0 ≤ p.1 ∧ 0 ≤ p.2 then ((g.getD p.2.toNat []).getD p.1.toNat 0) else 0

/-- Foreground test of the contour trace: any nonzero sample. -/
def isForeground (g : List (List ℕ)) (p : ℤ × ℤ) : Bool := gridAt g p ≠ 0

/-- The Moore 8-neighbourhood in clockwise order (y grows downward),
starting from the west neighbour. -/
def dir8 : ℕ → ℤ × ℤ
  | 0 => (-1, 0)
  | 1 => (-1, -1)
  | 2 => (0, -1)
  | 3 => (1, -1)
  | 4 => (1, 0)
  | 5 => (1, 1)
  | 6 => (0, 1)
  | _ => (-1, 1)

/-- One step of the Moore-neighbour boundary trace: scan the 8 neighbours of
`c` clockwise starting from direction `startDir`; move to the first
foreground neighbour found, remembering where to restart the next scan (one
step clockwise past the backtrack neighbour). -/
def mooreStep (g : List (List ℕ)) (c : ℤ × ℤ) (startDir : ℕ) :
    Option ((ℤ × ℤ) × ℕ) :=
  ((List.range 8).map (fun i => (startDir + i) % 8)).findSome? (fun d =>
    let n := (c.1 + (dir8 d).1, c.2 + (dir8 d).2)
    if isForeground g n then some (n, (d + 6) % 8) else none)

/-- The boundary walk after the start pixel, with explicit fuel; stops when
the walk returns to the start pixel or no foreground neighbour exists. -/
def mooreLoop (g : List (List ℕ)) (s : ℤ × ℤ) : ℕ → ℤ × ℤ → ℕ → List (ℤ × ℤ)
  | 0, _, _ => []
  | fuel + 1, c, d =>
    match mooreStep g c d with
    | none => []
    | some nd => if nd.1 = s then [] else nd.1 :: mooreLoop g s fuel nd.1 nd.2

/-- First foreground pixel of a row, as a column index. -/
def rowFirstNonzero (row : List ℕ) : Option ℕ := row.findIdx? (fun v => v ≠ 0)

/-- Row-major scan for the trace's start pixel, returned as `(x, y)`. -/
def first_foreground (g : List (List ℕ)) : Option (ℤ × ℤ) :=
  g.enum.findSome? (fun ir => (rowFirstNonzero ir.2).map
    (fun j => ((j : ℤ), (ir.1 : ℤ))))

/-- Modelled from the spec: the contour extraction that the repository
delegates to `cv2.findContours` (an external library, not under `src/`).
Spec §4.2: trace the outer boundary only of the foreground region with a
standard boundary-following (Moore-neighbour) trace.  The start pixel is the
first foreground pixel in row-major order (whose west neighbour is therefore
background), and the fuel bounds the walk.  Vertex-chain compression
(`CHAIN_APPROX_TC89_KCOS` / `CHAIN_APPROX_NONE` differences) is not
modelled; every concrete mask evaluated below is degenerate enough that the
traced chain and the compressed chain coincide. -/
def findContoursOuter (g : List (List ℕ)) : List (ℤ × ℤ) :=
  match first_foreground g with
  | none => []
  | some s => s :: mooreLoop g s (4 * (g.length + 2) * (g.headI.length + 2)) s 0

/-- `server_utils.convert_mask_to_polygon(mask)`: cast the mask with
`astype("uint8")`, take the first traced contour as `(x, y)` coordinate
pairs, and close the polygon by appending its first vertex (`poly.append(
poly[0])`). -/
def convert_mask_to_polygon (mask : List (List ℚ)) : List (ℤ × ℤ) :=
  let g := mask.map (fun row => row.map np_astype_uint8)
  let coords := findContoursOuter g
  coords ++ [coords.headI]

/-- `aircraft/app.py mask_to_polygon(mask)`: cast to uint8, threshold with
`cv2.threshold(…, 0.5, 255, THRESH_BINARY)` (strictly above 0.5 becomes 255,
the rest 0), and return the first contour's point list — note: no closing
vertex is appended here. -/
def mask_to_polygon (mask : List (List ℚ)) : List (ℤ × ℤ) :=
  let mask_np := mask.map (fun row => row.map np_astype_uint8)
  let binary_mask := mask_np.map (fun row => row.map
    (fun v => if (1 : ℚ)/2 < (v : ℚ) then (255 : ℕ) else 0))
  findContoursOuter binary_mask

/-! ## Aircraft model (`aircraft/app.py`) -/

/-- A detectron2 result instance: predicted box, score, and instance mask. -/
structure D2Instance where
  bbox : List ℚ
  score : ℚ
  mask : List (List ℚ)

/-- The default value of the `image_id` parameter of
`instances_to_feature_collection`: the `str(uuid.uuid4())` in the `def` line
is evaluated ONCE, at function-definition (module import) time, as Python
default arguments are; the model reserves draw 0 of the process entropy
stream for it. -/
def aircraft_default_image_id (e : Entropy) : Token := (uuid4 e 0).1

/-- The per-instance loop of `instances_to_feature_collection`: each feature
draws a fresh `uuid.uuid4()` for its `id`, while every feature of every call
carries the same `image_id` argument; `geom_imcoords` is attached from the
instance mask only when segmentation is enabled. -/
def instances_to_features (enable_segmentation : Bool) (e : Entropy)
    (imgId : Token) : List D2Instance → ℕ → List Feature
  | [], _ => []
  | inst :: rest, k =>
    let idDraw := uuid4 e k
    let geom : Option (List (ℚ × ℚ)) :=
      if enable_segmentation then
        some ((mask_to_polygon inst.mask).map (fun p => ((p.1 : ℚ), (p.2 : ℚ))))
      else none
    ⟨idDraw.1, (0, 0), inst.bbox, none, geom, inst.score,
      [("aircraft", inst.score)], imgId⟩ ::
      instances_to_features enable_segmentation e imgId rest idDraw.2

/-- `instances_to_feature_collection(instances, image_id=str(uuid.uuid4()))`:
when the caller does not pin `image_id`, the module-level default token is
used — the same one on every call. -/
def instances_to_feature_collection (enable_segmentation : Bool) (e : Entropy)
    (k : ℕ) (instances : List D2Instance) (image_id : Option Token) :
    List Feature :=
  instances_to_features enable_segmentation e
    (image_id.getD (aircraft_default_image_id e)) instances k

/-- The decoded sample buffer handed to `request_to_instances` by
`gdal_dataset.ReadAsArray()`: either floating-point samples or 8-bit
samples, with the dtype shared by the whole array. -/
inductive SampleArray where
  | floats (xs : List ℚ)
  | bytes (xs : List ℕ)

/-- `np.all(np.isclose(image_array, 0))` with numpy defaults
(`atol = 1e-08`): every float sample within `1e-08` of zero, or every 8-bit
sample equal to zero. -/
def np_isclose_zero : SampleArray → Bool
  | SampleArray.floats xs => xs.all (fun x => |x| ≤ 1/100000000)
  | SampleArray.bytes xs => xs.all (fun n => n = 0)

/-- `(image_array * 255).astype(np.uint8)` of `request_to_instances`,
applied unconditionally to the decoded array: for a float array numpy
multiplies in float and the cast truncates toward zero wrapping modulo 256;
for a uint8 array numpy multiplies elementwise in uint8 arithmetic (wrapping
modulo 256) and the cast is then the identity.  The channel normalization
between the fault check and this conversion (`np.stack` / `np.repeat` /
dropping the alpha plane) only replicates or drops whole planes and never
alters a sample value; it is left out of the sample-value model. -/
def convert_to_uint8 : SampleArray → List ℕ
  | SampleArray.floats xs => xs.map (fun x => (rat_trunc (x * 255) % 256).toNat)
  | SampleArray.bytes xs => xs.map (fun n => (n * 255) % 256)

/-- `request_to_instances(req)` of `aircraft/app.py`, as a function of the
`gdal.Open` outcome: `none` models an undecodable payload (GDAL raises with
`gdal.UseExceptions()` active; the `except` block re-raises), and a decoded
array is fault-checked (when enabled), converted with `convert_to_uint8`,
and handed to the predictor capability.  The fault-detection branch raises a
plain `Exception` whose message is the string below. -/
def request_to_instances (enable_fault_detection : Bool)
    (predictor : List ℕ → List D2Instance) (openResult : Option SampleArray) :
    Except String (List D2Instance) :=
  match openResult with
  | none => Except.error "Unable to load tile from request"
  | some image_array =>
    if enable_fault_detection && np_isclose_zero image_array then
      Except.error "All pixels in the image tile are set to 0."
    else
      Except.ok (predictor (convert_to_uint8 image_array))

/-- The `predict` handler of `aircraft/app.py`: any exception escaping
`request_to_instances` — decode failure and the fault-detection exception
alike — is caught by the handler's single `except Exception` and answered
with the same generic 500 response. -/
def aircraft_predict (enable_fault_detection enable_segmentation : Bool)
    (predictor : List ℕ → List D2Instance) (e : Entropy) (k : ℕ)
    (openResult : Option SampleArray) : Resp :=
  match request_to_instances enable_fault_detection predictor openResult with
  | Except.error _ => ⟨500, RespBody.text "Unable to process request!"⟩
  | Except.ok instances =>
    ⟨200, RespBody.featureCollection
      (instances_to_feature_collection enable_segmentation e k instances none)⟩


/-! ## Claim-level predicates -/

/-- Containment of a 4-element bbox `[x_min, y_min, x_max, y_max]` in
`[0, width] × [0, height]`, as the spec's flood-generator property states
it. -/
def bbox_within_bounds (b : List ℚ) (width height : ℕ) : Bool :=
  match b with
  | [x0, y0, x1, y1] =>
    decide (0 ≤ x0) && decide (x1 ≤ (width : ℚ)) &&
      (decide (0 ≤ y0) && decide (y1 ≤ (height : ℚ)))
  | _ => false

/-- All fields of a feature except the independently generated `id` and
`image_id` tokens: the placeholder geometry, bbox, both optional polygon
keys, score and `feature_types`. -/
def featureDataPart (f : Feature) :
    (ℚ × ℚ) × List ℚ × Option (List (ℚ × ℚ)) × Option (List (ℚ × ℚ)) ×
      ℚ × List (String × ℚ) :=
  (f.geometry, f.bounds_imcoords, f.polygon_imcoords, f.geom_imcoords,
    f.detection_score, f.feature_types)

/-! ## Helper lemmas -/

/-- Evaluation rule for `math_ceil` at concrete rationals. -/
theorem math_ceil_eq_of (q : ℚ) (z : ℤ) (h1 : (z : ℚ) - 1 < q)
    (h2 : q ≤ (z : ℚ)) : math_ceil q = z := by
  unfold math_ceil
  exact Int.ceil_eq_iff.mpr ⟨h1, h2⟩

/-- Evaluation rule for `rat_trunc` at concrete nonnegative rationals. -/
theorem rat_trunc_eq_of (q : ℚ) (z : ℤ) (h0 : 0 ≤ q) (h1 : (z : ℚ) ≤ q)
    (h2 : q < (z : ℚ) + 1) : rat_trunc q = z := by
  unfold rat_trunc
  rw [if_pos h0]
  exact Int.floor_eq_iff.mpr ⟨h1, h2⟩

/-- `astype("uint8")` fixes the sample value 0. -/
theorem np_astype_uint8_zero : np_astype_uint8 0 = 0 := by
  norm_num [np_astype_uint8,
    rat_trunc_eq_of 0 0 (by norm_num) (by norm_num) (by norm_num)]

/-- `astype("uint8")` fixes the sample value 1. -/
theorem np_astype_uint8_one : np_astype_uint8 1 = 1 := by
  norm_num [np_astype_uint8,
    rat_trunc_eq_of 1 1 (by norm_num) (by norm_num) (by norm_num)]

/-! ## Claim theorems -/

/-- C9: for a 1000×800 raster with `bbox_percentage = 0.1`, the centerpoint
generator produces exactly one feature whose `bounds_imcoords` equal
`[400.0, 320.0, 600.0, 480.0]` (float64 evaluates these products exactly, so
the rational model agrees bit-for-bit with the source). -/
theorem c9_centerpoint_scenario_1000x800 (e : Entropy) (k : ℕ) :
    (respFeatures (centerpoint_predict false (1/10) e k
        (some (1000, 800)))).length = 1 ∧
    (respFeatures (centerpoint_predict false (1/10) e k
        (some (1000, 800)))).headI.bounds_imcoords = [400, 320, 600, 480] := by
  constructor
  · rfl
  · norm_num [respFeatures, centerpoint_predict, gen_center_point_detect,
      detect_to_geojson, token_hex]

/-- C8: the centerpoint generators are deterministic — two calls with the
same `(width, height, bbox_percentage)` agree on every feature field except
the independently drawn `id` and `image_id` tokens, whatever the entropy
stream and draw counter of each call. -/
theorem c8_centerpoint_deterministic (width height : ℕ) (bbox_percentage : ℚ)
    (e₁ e₂ : Entropy) (k₁ k₂ : ℕ) :
    featureDataPart (gen_center_point_detect width height bbox_percentage e₁ k₁).1
      = featureDataPart (gen_center_point_detect width height bbox_percentage e₂ k₂).1 ∧
    featureDataPart (gen_center_polygon_detect width height bbox_percentage e₁ k₁).1
      = featureDataPart (gen_center_polygon_detect width height bbox_percentage e₂ k₂).1 := by
  exact ⟨rfl, rfl⟩

/-- C1: the temporary `/vsimem` decode buffer is NOT released on every exit
path — on the flood model's decode-failure path (`gdal.Open` raises, the
handler answers 400) the `finally` block skips `gdal.Unlink` because
`gdal_dataset is None`, and `server_utils.load_image` (centerpoint models)
never unlinks the buffer on any path, success included. -/
theorem c1_decode_buffer_leak :
    (flood_predict 100 false (1/10) (fun n => n) 0 (fun _ => 0) (fun _ => 0)
        (fun _ => 1/2) none).resp.status = 400 ∧
    (flood_predict 100 false (1/10) (fun n => n) 0 (fun _ => 0) (fun _ => 0)
        (fun _ => 1/2) none).bufferReleased = false ∧
    (load_image (some (10, 10))).bufferReleased = false ∧
    (load_image none).bufferReleased = false := by
  exact ⟨rfl, rfl, rfl, rfl⟩

/-- C2: an unparseable request body gives a 400 client error on the
centerpoint and flood models, but the aircraft model's `predict` catches the
decode exception with its blanket `except Exception` and answers 500 — not
the 400 its own test `test_predict_bad_data_file` asserts. -/
theorem c2_aircraft_decode_failure_returns_500 :
    centerpoint_predict false (1/10) (fun n => n) 0 none
      = ⟨400, RespBody.text "Unable to parse image from request!"⟩ ∧
    (flood_predict 100 false (1/10) (fun n => n) 0 (fun _ => 0) (fun _ => 0)
        (fun _ => 1/2) none).resp.status = 400 ∧
    aircraft_predict false false (fun _ => []) (fun n => n) 1 none
      = ⟨500, RespBody.text "Unable to process request!"⟩ ∧
    (aircraft_predict false false (fun _ => []) (fun n => n) 1 none).status ≠ 400 := by
  refine ⟨rfl, rfl, rfl, ?_⟩
  intro h
  simp [aircraft_predict, request_to_instances] at h

/-- C10: on any decoded raster for which a passed-in dimension `d` satisfies
`d - ceil(d * bbox_percentage) <= ceil(d * bbox_percentage)` (small tiles, or
`bbox_percentage >= 0.5`), the flood generator's `randrange` range is empty,
the raised `ValueError` reaches the handler's blanket `except`, and the
invocation answers the generic 500 error instead of a feature collection. -/
theorem c10_flood_empty_randrange_returns_500 (flood_volume : ℕ)
    (enable_segmentation : Bool) (bbox_percentage : ℚ) (e : Entropy) (k : ℕ)
    (rx ry : ℕ → ℕ) (us : ℕ → ℚ) (W H : ℕ)
    (hv : 1 ≤ flood_volume)
    (hcond : (H : ℤ) - math_ceil ((H : ℚ) * bbox_percentage)
        ≤ math_ceil ((H : ℚ) * bbox_percentage)
      ∨ (W : ℤ) - math_ceil ((W : ℚ) * bbox_percentage)
        ≤ math_ceil ((W : ℚ) * bbox_percentage)) :
    (flood_predict flood_volume enable_segmentation bbox_percentage e k rx ry
      us (some (W, H))).resp.status = 500 := by
  obtain ⟨m, rfl⟩ : ∃ m, flood_volume = m + 1 := ⟨flood_volume - 1, by omega⟩
  have hgen : gen_flood_detects (m + 1) enable_segmentation W H
      bbox_percentage e k rx ry us = none := by
    unfold gen_flood_detects gen_flood_detects_aux
    rcases hcond with h | h
    · have hx : randrange (math_ceil ((H : ℚ) * bbox_percentage))
          ((H : ℤ) - math_ceil ((H : ℚ) * bbox_percentage)) (rx 0) = none := by
        unfold randrange
        rw [if_neg (by omega)]
      simp [hx]
    · cases hx : randrange (math_ceil ((H : ℚ) * bbox_percentage))
          ((H : ℤ) - math_ceil ((H : ℚ) * bbox_percentage)) (rx 0) with
      | none => simp [hx]
      | some gx =>
        have hy : randrange (math_ceil ((W : ℚ) * bbox_percentage))
            ((W : ℤ) - math_ceil ((W : ℚ) * bbox_percentage)) (ry 0) = none := by
          unfold randrange
          rw [if_neg (by omega)]
        simp [hx, hy]
  simp [flood_predict, hgen]

/-- Witness for C10: a decoded 2×2 raster with the default
`bbox_percentage = 0.1` satisfies the empty-range condition and the flood
invocation answers 500. -/
theorem c10_flood_empty_randrange_returns_500_witness :
    (1 ≤ 100 ∧
      ((2 : ℕ) : ℤ) - math_ceil (((2 : ℕ) : ℚ) * (1/10))
        ≤ math_ceil (((2 : ℕ) : ℚ) * (1/10))) ∧
    (flood_predict 100 false (1/10) (fun n => n) 0 (fun _ => 0) (fun _ => 0)
      (fun _ => 1/2) (some (2, 2))).resp.status = 500 := by
  have hc : math_ceil (((2 : ℕ) : ℚ) * (1/10)) = 1 :=
    math_ceil_eq_of _ 1 (by norm_num) (by norm_num)
  refine ⟨⟨by norm_num, by rw [hc]; norm_num⟩, ?_⟩
  exact c10_flood_empty_randrange_returns_500 100 false (1/10) (fun n => n) 0
    (fun _ => 0) (fun _ => 0) (fun _ => 1/2) 2 2 (by norm_num)
    (Or.inl (by rw [hc]; norm_num))

/-- C3: the flood invocation on a decoded 1000×8 raster (width 1000, height
8, `bbox_percentage = 0.1`, configured volume 1) produces exactly the
configured number of features, but the feature's bbox escapes
`[0, width] × [0, height]`: `predict` passes `(RasterXSize, RasterYSize)`
positionally into `gen_flood_detects(height, width, …)`, so the generated
y-extent is bounded by the raster width instead of its height — here
`bounds_imcoords = [0, 0, 2, 200]` with `y_max = 200 > 8`, contradicting the
claim and the generator's own docstring ("always fall within the image
bounds"). -/
theorem c3_flood_bbox_escapes_raster_bounds :
    (flood_predict 1 false (1/10) (fun n => n) 0 (fun _ => 0) (fun _ => 0)
        (fun _ => 1/2) (some (1000, 8))).resp.status = 200 ∧
    (respFeatures (flood_predict 1 false (1/10) (fun n => n) 0 (fun _ => 0)
        (fun _ => 0) (fun _ => 1/2) (some (1000, 8))).resp).length = 1 ∧
    (respFeatures (flood_predict 1 false (1/10) (fun n => n) 0 (fun _ => 0)
        (fun _ => 0) (fun _ => 1/2) (some (1000, 8))).resp).headI.bounds_imcoords
      = [0, 0, 2, 200] ∧
    bbox_within_bounds [0, 0, 2, 200] 1000 8 = false := by
  have h8 : math_ceil ((4 : ℚ)/5) = 1 :=
    math_ceil_eq_of _ 1 (by norm_num) (by norm_num)
  have h1000 : math_ceil ((100 : ℚ)) = 100 :=
    math_ceil_eq_of _ 100 (by norm_num) (by norm_num)
  refine ⟨?_, ?_, ?_, ?_⟩
  · norm_num [flood_predict, gen_flood_detects, gen_flood_detects_aux,
      randrange, h8, h1000, detect_to_feature, token_hex]
  · norm_num [flood_predict, gen_flood_detects, gen_flood_detects_aux,
      randrange, h8, h1000, detect_to_feature, token_hex, respFeatures]
  · norm_num [flood_predict, gen_flood_detects, gen_flood_detects_aux,
      randrange, h8, h1000, detect_to_feature, token_hex, respFeatures]
  · norm_num [bbox_within_bounds]

/-- Counterexample to C4: at the request boundary, an all-zero raster with
fault detection enabled is answered with exactly the same response as an
undecodable payload — the generic 500 with body "Unable to process
request!" — because `request_to_instances` raises a plain `Exception` and
`predict` catches everything with one `except Exception` clause; nothing
distinguishes the two outcomes. -/
theorem c4_counterexample_allzero_indistinguishable :
    aircraft_predict true false (fun _ => []) (fun n => n) 1
        (some (SampleArray.bytes [0, 0, 0, 0]))
      = aircraft_predict true false (fun _ => []) (fun n => n) 1 none := by
  rfl

/-- C4 amended: with fault detection enabled, an all-zero (or near-zero)
raster makes the pipeline raise an exception with the message "All pixels in
the image tile are set to 0.", and the invocation answers the generic 500
error — it is NOT a silent empty feature collection, but at the request
boundary the response is the same generic 500 as a decode failure, hence not
distinguishable there. -/
theorem c4_amended_allzero_raises (enable_segmentation : Bool)
    (predictor : List ℕ → List D2Instance) (e : Entropy) (k : ℕ)
    (image_array : SampleArray) (hz : np_isclose_zero image_array = true) :
    request_to_instances true predictor (some image_array)
      = Except.error "All pixels in the image tile are set to 0." ∧
    aircraft_predict true enable_segmentation predictor e k (some image_array)
      = ⟨500, RespBody.text "Unable to process request!"⟩ ∧
    (∀ fs : List Feature,
      aircraft_predict true enable_segmentation predictor e k (some image_array)
        ≠ ⟨200, RespBody.featureCollection fs⟩) := by
  have hreq : request_to_instances true predictor (some image_array)
      = Except.error "All pixels in the image tile are set to 0." := by
    simp [request_to_instances, hz]
  refine ⟨hreq, ?_, ?_⟩
  · simp [aircraft_predict, hreq]
  · intro fs h
    simp [aircraft_predict, hreq] at h

/-- Witness for C4 amended: a 2×2 raster of all-zero 8-bit samples. -/
theorem c4_amended_allzero_raises_witness :
    np_isclose_zero (SampleArray.bytes [0, 0, 0, 0]) = true ∧
    aircraft_predict true false (fun _ => []) (fun n => n) 1
        (some (SampleArray.bytes [0, 0, 0, 0]))
      = ⟨500, RespBody.text "Unable to process request!"⟩ := by
  refine ⟨by decide, ?_⟩
  exact (c4_amended_allzero_raises false (fun _ => []) (fun n => n) 1
    (SampleArray.bytes [0, 0, 0, 0]) (by decide)).2.1

/-- Every feature of one `instances_to_features` call carries the call's
`image_id` argument, whatever the token-draw counter. -/
theorem instances_to_features_image_id (enable_segmentation : Bool)
    (e : Entropy) (imgId : Token) (insts : List D2Instance) : ∀ k : ℕ,
    (instances_to_features enable_segmentation e imgId insts k).map
        Feature.image_id
      = insts.map (fun _ => imgId) := by
  induction insts with
  | nil => intro k; rfl
  | cons inst rest ih => intro k; simp [instances_to_features, ih]

/-- Counterexample to C5: two calls of the aircraft feature encoder on the
identical detection, neither pinning `image_id`, emit features with the SAME
`image_id` — the `str(uuid.uuid4())` in the parameter default is evaluated
once at function definition, not per call — while the per-feature `id` does
differ. -/
theorem c5_counterexample_aircraft_shared_image_id :
    (instances_to_feature_collection false (fun n => n) 1
        [⟨[0, 0, 1, 1], 9/10, [[1]]⟩] none).headI.image_id
      = (instances_to_feature_collection false (fun n => n) 5
        [⟨[0, 0, 1, 1], 9/10, [[1]]⟩] none).headI.image_id ∧
    (instances_to_feature_collection false (fun n => n) 1
        [⟨[0, 0, 1, 1], 9/10, [[1]]⟩] none).headI.fid
      ≠ (instances_to_feature_collection false (fun n => n) 5
        [⟨[0, 0, 1, 1], 9/10, [[1]]⟩] none).headI.fid := by
  exact ⟨rfl, by decide⟩

/-- C5 amended: `server_utils.detect_to_geojson_dict` draws a fresh `id` and
a fresh `image_id` on every call, so two calls on identical detections
differ in both (whenever the token source never repeats); but the aircraft
encoder `instances_to_feature_collection` called without an explicit
`image_id` stamps every feature of every call with the single module-load
default token, so the emitted `image_id`s coincide across calls. -/
theorem c5_amended_fresh_ids (e : Entropy) (hinj : Function.Injective e) :
    (∀ (k : ℕ) (bbox : List ℚ) (score : ℚ) (dtype : String),
      (detect_to_geojson_dict bbox score dtype e k).1.fid
          ≠ (detect_to_geojson_dict bbox score dtype e
              (detect_to_geojson_dict bbox score dtype e k).2).1.fid ∧
      (detect_to_geojson_dict bbox score dtype e k).1.image_id
          ≠ (detect_to_geojson_dict bbox score dtype e
              (detect_to_geojson_dict bbox score dtype e k).2).1.image_id) ∧
    (∀ (enable_segmentation : Bool) (insts : List D2Instance) (k₁ k₂ : ℕ),
      (instances_to_feature_collection enable_segmentation e k₁ insts
          none).map Feature.image_id
        = (instances_to_feature_collection enable_segmentation e k₂ insts
          none).map Feature.image_id) := by
  constructor
  · intro k bbox score dtype
    constructor
    · simp only [detect_to_geojson_dict, token_hex]
      intro h
      have := hinj h
      omega
    · simp only [detect_to_geojson_dict, token_hex]
      intro h
      have := hinj h
      omega
  · intro seg insts k₁ k₂
    simp [instances_to_feature_collection, instances_to_features_image_id]

/-- Witness for C5 amended: the identity token stream is injective, and two
successive `detect_to_geojson_dict` calls then draw different `id`s. -/
theorem c5_amended_fresh_ids_witness :
    Function.Injective (fun n : ℕ => n) ∧
    (detect_to_geojson_dict [] 1 "sample_object" (fun n => n) 0).1.fid
      ≠ (detect_to_geojson_dict [] 1 "sample_object" (fun n => n)
          (detect_to_geojson_dict [] 1 "sample_object" (fun n => n) 0).2).1.fid := by
  refine ⟨fun a b h => h, ?_⟩
  exact ((c5_amended_fresh_ids (fun n => n) (fun a b h => h)).1 0 [] 1
    "sample_object").1

/-- Counterexample to C6: a sample already in 8-bit range is NOT handed over
unchanged — the `(image_array * 255).astype(np.uint8)` conversion is applied
to it as well, in wrapping uint8 arithmetic, so the sample value 1 becomes
255. -/
theorem c6_counterexample_uint8_not_unchanged :
    convert_to_uint8 (SampleArray.bytes [1]) = [255] ∧
    convert_to_uint8 (SampleArray.bytes [1]) ≠ [1] := by
  exact ⟨rfl, by decide⟩

/-- C6 amended: the multiply-by-255 conversion is applied unconditionally to
every decoded array.  On floating-point samples in `[0, 1]` it is the
deterministic multiply-and-truncate into `[0, 255]` the claim describes; on
samples already in 8-bit range it is multiplication modulo 256, which maps a
nonzero sample `n ≤ 255` to `256 - n` rather than leaving it unchanged. -/
theorem c6_amended_conversion_unconditional :
    (∀ x : ℚ, 0 ≤ x → x ≤ 1 →
      convert_to_uint8 (SampleArray.floats [x]) = [(⌊x * 255⌋).toNat] ∧
      (⌊x * 255⌋).toNat ≤ 255) ∧
    (∀ n : ℕ, convert_to_uint8 (SampleArray.bytes [n]) = [n * 255 % 256]) ∧
    (∀ n : ℕ, 1 ≤ n → n ≤ 255 → n * 255 % 256 = 256 - n) := by
  refine ⟨?_, fun n => rfl, ?_⟩
  · intro x h0 h1
    have hnn : (0 : ℚ) ≤ x * 255 := by positivity
    have htr : rat_trunc (x * 255) = ⌊x * 255⌋ := by
      unfold rat_trunc
      rw [if_pos hnn]
    have hfl0 : 0 ≤ ⌊x * 255⌋ := Int.floor_nonneg.mpr hnn
    have hfl255 : ⌊x * 255⌋ ≤ 255 := by
      have : x * 255 ≤ 255 := by nlinarith
      calc ⌊x * 255⌋ ≤ ⌊(255 : ℚ)⌋ := Int.floor_le_floor this
        _ = 255 := by norm_num
    have hmod : ⌊x * 255⌋ % 256 = ⌊x * 255⌋ :=
      Int.emod_eq_of_lt hfl0 (by omega)
    constructor
    · simp [convert_to_uint8, htr, hmod]
    · exact Int.toNat_le.mpr (by omega)
  · intro n h1 h255
    omega

/-- Witness for C6 amended: the float sample 1/2 is converted to
`trunc(127.5) = 127`. -/
theorem c6_amended_conversion_unconditional_witness :
    ((0 : ℚ) ≤ 1/2 ∧ (1/2 : ℚ) ≤ 1) ∧
    convert_to_uint8 (SampleArray.floats [1/2]) = [(⌊(1/2 : ℚ) * 255⌋).toNat] := by
  refine ⟨⟨by norm_num, by norm_num⟩, ?_⟩
  exact (c6_amended_conversion_unconditional.1 (1/2) (by norm_num)
    (by norm_num)).1

/-- Counterexample to C7: on a mask whose foreground is a single pixel, the
traced contour is that one point, and `convert_mask_to_polygon` emits the
closed 2-point polygon `[(1,1), (1,1)]` — fewer than the 4 points the claim
requires of every emitted polygon. -/
theorem c7_counterexample_two_point_polygon :
    convert_mask_to_polygon [[0, 0, 0], [0, 1, 0], [0, 0, 0]]
      = [(1, 1), (1, 1)] ∧
    ¬ 4 ≤ (convert_mask_to_polygon [[0, 0, 0], [0, 1, 0], [0, 0, 0]]).length := by
  have hpoly : convert_mask_to_polygon [[0, 0, 0], [0, 1, 0], [0, 0, 0]]
      = [(1, 1), (1, 1)] := by
    norm_num [convert_mask_to_polygon, np_astype_uint8_zero,
      np_astype_uint8_one]
    decide
  refine ⟨hpoly, ?_⟩
  rw [hpoly]
  decide

/-- C7 amended: every emitted polygon is indeed closed — the contourer and
the centerpoint segmentation stub both append the first vertex so that the
first and last points coincide — and the stub's polygon always has 8 ≥ 4
points; but the contourer emits one point more than the traced contour with
no 4-point minimum. -/
theorem c7_amended_polygons_closed :
    (∀ mask : List (List ℚ),
      findContoursOuter (mask.map (fun row => row.map np_astype_uint8)) ≠ [] →
      (convert_mask_to_polygon mask).head?
          = (convert_mask_to_polygon mask).getLast? ∧
      (convert_mask_to_polygon mask).length
        = (findContoursOuter (mask.map (fun row =>
            row.map np_astype_uint8))).length + 1) ∧
    (∀ (width height : ℕ) (bbox_percentage : ℚ) (e : Entropy) (k : ℕ),
      ∃ poly : List (ℚ × ℚ),
        (gen_center_polygon_detect width height bbox_percentage
            e k).1.polygon_imcoords = some poly ∧
        poly.head? = poly.getLast? ∧ poly.length = 8) := by
  constructor
  · intro mask h
    rcases hc : findContoursOuter (mask.map (fun row =>
        row.map np_astype_uint8)) with _ | ⟨a, t⟩
    · exact absurd hc h
    · have hpoly : convert_mask_to_polygon mask = a :: (t ++ [a]) := by
        simp [convert_mask_to_polygon, hc]
      rw [hpoly, hc]
      constructor
      · have : (a :: (t ++ [a])) = (a :: t) ++ [a] := by simp
        rw [this, List.getLast?_concat]
        rfl
      · simp
  · intro width height bbox_percentage e k
    exact ⟨_, rfl, rfl, rfl⟩

/-- Witness for C7 amended: the single-pixel mask has a nonempty contour and
its emitted polygon is closed. -/
theorem c7_amended_polygons_closed_witness :
    findContoursOuter (([[0, 0, 0], [0, 1, 0], [0, 0, 0]] :
        List (List ℚ)).map (fun row => row.map np_astype_uint8)) ≠ [] ∧
    (convert_mask_to_polygon [[0, 0, 0], [0, 1, 0], [0, 0, 0]]).head?
      = (convert_mask_to_polygon [[0, 0, 0], [0, 1, 0], [0, 0, 0]]).getLast? := by
  have hg : (([[0, 0, 0], [0, 1, 0], [0, 0, 0]] :
      List (List ℚ)).map (fun row => row.map np_astype_uint8))
      = [[0, 0, 0], [0, 1, 0], [0, 0, 0]] := by
    norm_num [np_astype_uint8_zero, np_astype_uint8_one]
  constructor
  · rw [hg]
    decide
  · exact (c7_amended_polygons_closed.1 [[0, 0, 0], [0, 1, 0], [0, 0, 0]]
      (by rw [hg]; decide)).1

end OsmlModels
